import Mathlib

/-
Shallow embedding of src/src/ucp/endpoint/am.rs (async-ucx active-message
layer).  Bytes are modelled as `Nat`, payload buffers as `List Nat`, raw
pointers (`ucp_ep_h`) as `Option Nat` (`none` = null).  The asynchronous
native calls (`ucp_am_send_nbx`, `ucp_am_recv_data_nbx`) are external to the
repository; their immediate return shape is modelled by a `NativeOutcome`
oracle parameter (null pointer = immediate success, request pointer =
pending, raw status = immediate failure), and the bytes a successful pull
deposits into the caller's buffers are modelled from the spec (the transport
writes exactly the descriptor's bytes).  Process termination (`panic!`,
`assert!` failure) is a distinct `Outcome.panicked` result, so that
error-returns and aborts are distinguishable.
-/

namespace AsyncUcx

/-- Attribute bit for `UCP_AM_RECV_ATTR_FIELD_REPLY_EP` (value from the UCX
header, external to this repository). -/
def UCP_AM_RECV_ATTR_FIELD_REPLY_EP : Nat := 1

/-- Attribute bit for `UCP_AM_RECV_ATTR_FLAG_DATA` (value from the UCX
header, external to this repository). -/
def UCP_AM_RECV_ATTR_FLAG_DATA : Nat := 65536

/-- Attribute bit for `UCP_AM_RECV_ATTR_FLAG_RNDV` (value from the UCX
header, external to this repository). -/
def UCP_AM_RECV_ATTR_FLAG_RNDV : Nat := 131072

/-- Mirrors `enum AmDataType { Eager, Data, Rndv }`. -/
inductive AmDataType
  | eager
  | data
  | rndv
deriving DecidableEq, Repr

/-- Mirrors `enum AmData { Eager(Vec<u8>), Data(&[u8]), Rndv(&[u8]) }`. -/
inductive AmData
  | eager (bytes : List Nat)
  | data (bytes : List Nat)
  | rndv (bytes : List Nat)
deriving DecidableEq, Repr

/-- Mirrors `AmData::from_raw`: zero length gives no payload; otherwise the
DATA flag is tested first, then the RNDV flag, else an eager copy. -/
def AmData.from_raw (d : List Nat) (attr : Nat) : Option AmData :=
  if d.length = 0 then
    none
  else if attr &&& UCP_AM_RECV_ATTR_FLAG_DATA ≠ 0 then
    some (AmData.data d)
  else if attr &&& UCP_AM_RECV_ATTR_FLAG_RNDV ≠ 0 then
    some (AmData.rndv d)
  else
    some (AmData.eager d)

/-- Mirrors `AmData::data_type`. -/
def AmData.data_type : AmData → AmDataType
  | AmData.eager _ => AmDataType.eager
  | AmData.data _ => AmDataType.data
  | AmData.rndv _ => AmDataType.rndv

/-- Mirrors `AmData::data` (the accessor returning `Some` for `Eager` and
`Data`, `None` for `Rndv`). -/
def AmData.dataBytes : AmData → Option (List Nat)
  | AmData.eager d => some d
  | AmData.data d => some d
  | AmData.rndv _ => none

/-- Mirrors `AmData::len`. -/
def AmData.len : AmData → Nat
  | AmData.eager d => d.length
  | AmData.data d => d.length
  | AmData.rndv d => d.length

/-- Mirrors `struct RawMsg`. -/
structure RawMsg where
  id : Nat
  header : List Nat
  data : Option AmData
  reply_ep : Option Nat
  attr : Nat
deriving DecidableEq, Repr

/-- Mirrors `RawMsg::from_raw`. -/
def RawMsg.from_raw (id : Nat) (header : List Nat) (data : List Nat)
    (reply_ep : Option Nat) (attr : Nat) : RawMsg :=
  { id := id, header := header, data := AmData.from_raw data attr,
    reply_ep := reply_ep, attr := attr }

/-- Mirrors `struct AmMsg` (the borrowed worker reference is dropped: it is
only needed to issue native calls, which the oracle models). -/
structure AmMsg where
  msg : RawMsg
deriving DecidableEq, Repr

/-- Mirrors `AmMsg::id`. -/
def AmMsg.id (m : AmMsg) : Nat := m.msg.id

/-- Mirrors `AmMsg::header`. -/
def AmMsg.header (m : AmMsg) : List Nat := m.msg.header

/-- Mirrors `AmMsg::data_type`. -/
def AmMsg.data_type (m : AmMsg) : Option AmDataType :=
  m.msg.data.map AmData.data_type

/-- Mirrors `AmMsg::contains_data`. -/
def AmMsg.contains_data (m : AmMsg) : Bool :=
  m.data_type.isSome

/-- Mirrors `AmMsg::get_data`. -/
def AmMsg.get_data (m : AmMsg) : Option (List Nat) :=
  m.msg.data.bind AmData.dataBytes

/-- Mirrors `AmMsg::data_len`. -/
def AmMsg.data_len (m : AmMsg) : Nat :=
  match m.msg.data with
  | none => 0
  | some d => d.len

/-- Immediate shape of a native nbx call: `ok` is a null status pointer
(operation already complete), `pending` is a request pointer
(`UCS_PTR_IS_PTR`, awaited to completion), `fail` is a raw error status. -/
inductive NativeOutcome
  | ok
  | pending
  | fail (code : Int)
deriving DecidableEq, Repr

/-- Result of a fallible operation: `ok` mirrors `Ok(_)`, `err` mirrors
`Err(())`, and `panicked` marks process termination via `panic!` or a failed
`assert!`. -/
inductive Outcome (α : Type)
  | ok (a : α)
  | err
  | panicked
deriving DecidableEq, Repr

/-- Mirrors the copy loop inside `AmMsg::recv_data_vectored` for the eager
case, verbatim: `copyed` starts at 0, each iteration sets
`len = min(copyed, buf.len())`, breaks when `len == 0`, copies
`data[copyed..copyed+len]` into the buffer, and advances `copyed`.  Returns
the final `copyed` and the concatenated bytes written to caller memory. -/
def copyLoop : List Nat → Nat → List Nat → Nat × List Nat
  | [], copyed, _ => (copyed, [])
  | cap :: rest, copyed, d =>
    let len := min copyed cap
    if len = 0 then
      (copyed, [])
    else
      let seg := (d.drop copyed).take len
      let r := copyLoop rest (copyed + len) d
      (r.1, seg ++ r.2)

/-- Mirrors `AmMsg::recv_data_vectored`.  The caller's scatter/gather list is
modelled by its capacities `iov`; the result carries the returned byte count
together with the bytes written into caller memory.  The eager branch checks
total capacity with `assert!` (capacity shortfall panics) and runs the copy
loop; the descriptor branches issue the native pull, whose immediate shape is
the `native` oracle (a raw failure status hits `panic!`), and on completion
return `Ok(data_len)` with the transport having deposited the descriptor's
bytes. -/
def AmMsg.recv_data_vectored (m : AmMsg) (iov : List Nat)
    (native : NativeOutcome) : Outcome (Nat × List Nat) × AmMsg :=
  match m.msg.data with
  | some d =>
    match d with
    | AmData.eager bytes =>
      let cap := iov.foldl (fun c b => c + b) 0
      if cap ≥ bytes.length then
        (Outcome.ok (copyLoop iov 0 bytes), AmMsg.mk { m.msg with data := none })
      else
        (Outcome.panicked, AmMsg.mk { m.msg with data := none })
    | AmData.data bytes =>
      match native with
      | NativeOutcome.fail _ =>
        (Outcome.panicked, AmMsg.mk { m.msg with data := none })
      | _ =>
        (Outcome.ok (bytes.length, bytes), AmMsg.mk { m.msg with data := none })
    | AmData.rndv bytes =>
      match native with
      | NativeOutcome.fail _ =>
        (Outcome.panicked, AmMsg.mk { m.msg with data := none })
      | _ =>
        (Outcome.ok (bytes.length, bytes), AmMsg.mk { m.msg with data := none })
  | none => (Outcome.ok (0, []), m)

/-- Mirrors `AmMsg::recv_data_single`: early `Ok(0)` when no payload,
otherwise a one-element scatter/gather list. -/
def AmMsg.recv_data_single (m : AmMsg) (buf : Nat)
    (native : NativeOutcome) : Outcome (Nat × List Nat) × AmMsg :=
  if m.contains_data = false then
    (Outcome.ok (0, []), m)
  else
    m.recv_data_vectored [buf] native

/-- Mirrors `AmMsg::recv_data` (owned-buffer form): `None` yields an empty
vector, `Eager` moves the vector out, a descriptor is put back and pulled
through `recv_data_single` into a buffer of `data_len` capacity, truncated to
the returned size. -/
def AmMsg.recv_data (m : AmMsg) (native : NativeOutcome) :
    Outcome (List Nat) × AmMsg :=
  match m.msg.data with
  | none => (Outcome.ok [], m)
  | some (AmData.eager v) => (Outcome.ok v, AmMsg.mk { m.msg with data := none })
  | some d =>
    match (AmMsg.mk { m.msg with data := some d }).recv_data_single d.len native with
    | (Outcome.ok r, m2) => (Outcome.ok (r.2.take r.1), m2)
    | (Outcome.err, m2) => (Outcome.err, m2)
    | (Outcome.panicked, m2) => (Outcome.panicked, m2)

/-- Mirrors `AmMsg::need_reply`: the REPLY_EP attribute field is present and
the reply endpoint pointer is non-null. -/
def AmMsg.need_reply (m : AmMsg) : Bool :=
  (m.msg.attr &&& UCP_AM_RECV_ATTR_FIELD_REPLY_EP ≠ 0 : Bool)
    && !(m.msg.reply_ep == none)

/-- Mirrors `enum AmProto`. -/
inductive AmProto
  | eager
  | rndv
deriving DecidableEq, Repr

/-- Mirrors the free function `am_send`: flags are assembled from the proto
hint and reply request, the payload regions are submitted, and the immediate
native shape decides the result — null status is `Ok(())`, a request pointer
is awaited then `Ok(())`, and a raw failure status hits `panic!`. -/
def am_send (endpoint : Option Nat) (id : Nat) (header : List Nat)
    (data : List (List Nat)) (need_reply : Bool) (proto : Option AmProto)
    (native : NativeOutcome) : Outcome Unit :=
  match native with
  | NativeOutcome.ok => Outcome.ok ()
  | NativeOutcome.pending => Outcome.ok ()
  | NativeOutcome.fail _ => Outcome.panicked

/-- Mirrors `AmMsg::reply_vectorized`: `assert_eq!(need_reply(), true)` then
`am_send` to the reply endpoint. -/
def AmMsg.reply_vectorized (m : AmMsg) (id : Nat) (header : List Nat)
    (data : List (List Nat)) (need_reply : Bool) (proto : Option AmProto)
    (native : NativeOutcome) : Outcome Unit :=
  if m.need_reply = true then
    am_send m.msg.reply_ep id header data need_reply proto native
  else
    Outcome.panicked

/-- Mirrors `AmMsg::reply`: `assert_eq!(need_reply(), true)` then the
vectorized form with a single region. -/
def AmMsg.reply (m : AmMsg) (id : Nat) (header : List Nat) (data : List Nat)
    (need_reply : Bool) (proto : Option AmProto)
    (native : NativeOutcome) : Outcome Unit :=
  if m.need_reply = true then
    m.reply_vectorized id header [data] need_reply proto native
  else
    Outcome.panicked

/-- Mirrors `impl Drop for AmMsg`: the descriptor handed to
`ucp_am_data_release`, if any.  `Eager` and `None` release nothing. -/
def AmMsg.dropReleases (m : AmMsg) : Option (List Nat) :=
  match m.msg.data with
  | some (AmData.data d) => some d
  | some (AmData.rndv d) => some d
  | _ => none

/-- Mirrors `struct AmHandler` (the `Notify` wake signal carries no state
relevant to the sequential semantics; the queue and flag are the state). -/
structure AmHandler where
  id : Nat
  msgs : List RawMsg
  unregistered : Bool
deriving DecidableEq, Repr

/-- Mirrors `AmHandler::new`. -/
def AmHandler.new (id : Nat) : AmHandler :=
  { id := id, msgs := [], unregistered := false }

/-- Mirrors `AmHandler::unregister`: sets the flag, touches nothing else. -/
def AmHandler.unregister (h : AmHandler) : AmHandler :=
  { h with unregistered := true }

/-- Mirrors `AmHandler::callback`: builds a `RawMsg` and pushes it at the
back of the queue. -/
def AmHandler.callback (h : AmHandler) (header data : List Nat)
    (reply : Option Nat) (attr : Nat) : AmHandler :=
  { h with msgs := h.msgs ++ [RawMsg.from_raw h.id header data reply attr] }

/-- One observable step of `AmHandler::wait_msg`: `got` is `Some(msg)`,
`no_msg` is the final `None`, `blocked` is the suspension on `notified()`
while the handler is still registered and the queue empty. -/
inductive WaitResult
  | got (m : RawMsg)
  | no_msg
  | blocked
deriving DecidableEq, Repr

/-- Mirrors `AmHandler::wait_msg` as a sequential step: while not
unregistered, pop the front if available, otherwise suspend; once
unregistered, pop the front one final time, yielding `None` when empty. -/
def AmHandler.wait_msg (h : AmHandler) : WaitResult × AmHandler :=
  if h.unregistered = false then
    match h.msgs with
    | m :: rest => (WaitResult.got m, { h with msgs := rest })
    | [] => (WaitResult.blocked, h)
  else
    match h.msgs with
    | m :: rest => (WaitResult.got m, { h with msgs := rest })
    | [] => (WaitResult.no_msg, h)

/-- Iterates `wait_msg` a number of times, collecting the results. -/
def waitSeq : AmHandler → Nat → List WaitResult × AmHandler
  | h, 0 => ([], h)
  | h, Nat.succ n =>
    ((h.wait_msg.1 :: (waitSeq h.wait_msg.2 n).1), (waitSeq h.wait_msg.2 n).2)

/-- Registry slice of `Worker`: `am_handlers` mirrors the id-keyed handler
map (as an association list), `installed` records each native-callback
installation performed by `ucp_worker_set_am_recv_handler`. -/
structure WorkerAm where
  am_handlers : List (Nat × AmHandler)
  installed : List Nat
deriving DecidableEq, Repr

/-- Mirrors `HashMap::contains_key` on the association list. -/
def containsKey (id : Nat) : List (Nat × AmHandler) → Bool
  | [] => false
  | (k, _) :: rest => k == id || containsKey id rest

/-- Mirrors `HashMap::remove` on the association list: the list without the
entry, and the removed handler if present. -/
def removeKey (id : Nat) : List (Nat × AmHandler) →
    List (Nat × AmHandler) × Option AmHandler
  | [] => ([], none)
  | (k, h) :: rest =>
    if k == id then
      (rest, some h)
    else
      ((k, h) :: (removeKey id rest).1, (removeKey id rest).2)

/-- Mirrors `Worker::am_register`: return early if the id is present, then
re-check under the write lock, then install the native callback and insert a
fresh handler. -/
def WorkerAm.am_register (w : WorkerAm) (id : Nat) : WorkerAm :=
  if containsKey id w.am_handlers then
    w
  else if containsKey id w.am_handlers then
    w
  else
    { am_handlers := w.am_handlers ++ [(id, AmHandler.new id)],
      installed := w.installed ++ [id] }

/-- Mirrors `Worker::am_unregister`: remove the mapping and, if a handler was
there, set its flag; the returned handler models the shared (`Rc`) reference
still held by outstanding waiters. -/
def WorkerAm.am_unregister (w : WorkerAm) (id : Nat) :
    WorkerAm × Option AmHandler :=
  ({ am_handlers := (removeKey id w.am_handlers).1, installed := w.installed },
    (removeKey id w.am_handlers).2.map AmHandler.unregister)

/-- Event at a handler: `arrive` is one invocation of the native arrival
callback (`AmHandler::callback`), `consume` is one consumer dequeue attempt
(`AmHandler::wait_msg`). -/
inductive HOp
  | arrive (header data : List Nat) (reply : Option Nat) (attr : Nat)
  | consume
deriving DecidableEq, Repr

/-- Runs a sequence of arrival/consume events against a handler, collecting
the envelopes the consumers dequeued, in dequeue order. -/
def runHandler : AmHandler → List HOp → AmHandler × List RawMsg
  | h, [] => (h, [])
  | h, HOp.arrive hd d r a :: ops => runHandler (h.callback hd d r a) ops
  | h, HOp.consume :: ops =>
    match h.wait_msg with
    | (WaitResult.got m, h2) =>
      ((runHandler h2 ops).1, m :: (runHandler h2 ops).2)
    | (WaitResult.no_msg, h2) => runHandler h2 ops
    | (WaitResult.blocked, h2) => runHandler h2 ops

/-- The envelopes an event sequence enqueues at a handler with the given id,
in arrival order. -/
def arrivals (id : Nat) : List HOp → List RawMsg
  | [] => []
  | HOp.arrive hd d r a :: ops => RawMsg.from_raw id hd d r a :: arrivals id ops
  | HOp.consume :: ops => arrivals id ops

/-- A message handle with its payload consumed: no unconsumed payload is
reported, and every further retrieval returns an empty success leaving the
handle unchanged. -/
def payloadCleared (m : AmMsg) : Prop :=
  m.msg.data = none ∧
  m.contains_data = false ∧
  m.data_len = 0 ∧
  (∀ iov o, m.recv_data_vectored iov o = (Outcome.ok (0, []), m)) ∧
  (∀ b o, m.recv_data_single b o = (Outcome.ok (0, []), m)) ∧
  (∀ o, m.recv_data o = (Outcome.ok [], m))

/-- Claim C1, code evaluated at the failing input: for an inline-copied
(eager) payload `[1, 2, 3]` and a caller buffer of capacity 3 — exactly the
payload length — `recv_data_vectored` (and `recv_data_single`) return 0
bytes written and deposit no bytes in caller memory, although the payload
length is 3: the copy loop computes `len = min(copyed, buf.len())` with
`copyed` initialised to 0 and breaks on the first iteration. -/
theorem eager_copy_writes_nothing :
    (AmMsg.mk ⟨1, [], some (AmData.eager [1, 2, 3]), none, 0⟩).recv_data_vectored
        [3] NativeOutcome.ok
      = (Outcome.ok (0, []), AmMsg.mk ⟨1, [], none, none, 0⟩) ∧
    (AmMsg.mk ⟨1, [], some (AmData.eager [1, 2, 3]), none, 0⟩).recv_data_single
        3 NativeOutcome.ok
      = (Outcome.ok (0, []), AmMsg.mk ⟨1, [], none, none, 0⟩) ∧
    (AmMsg.mk ⟨1, [], some (AmData.eager [1, 2, 3]), none, 0⟩).data_len = 3 := by
  decide

/-- Claim C2, code evaluated at the failing input: when the native call
returns an immediate raw failure status, `am_send` (hence send and reply)
and the descriptor pull in `recv_data_vectored` end in `panic!` — process
termination — rather than an error result value. -/
theorem raw_failure_panics :
    am_send (some 1) 7 [2] [[1]] false none (NativeOutcome.fail (-17))
      = Outcome.panicked ∧
    (AmMsg.mk ⟨5, [], none, some 2, 1⟩).reply 7 [2] [1] false none
        (NativeOutcome.fail (-17)) = Outcome.panicked ∧
    ((AmMsg.mk ⟨1, [], some (AmData.rndv [1, 2]), none, 0⟩).recv_data_vectored
        [2] (NativeOutcome.fail (-17))).1 = Outcome.panicked ∧
    ((AmMsg.mk ⟨1, [], some (AmData.data [1, 2]), none, 0⟩).recv_data_vectored
        [2] (NativeOutcome.fail (-17))).1 = Outcome.panicked := by
  decide

/-- Claim C3, counterexample: with both the has-descriptor flag and the
rendezvous flag set on a non-empty payload, `AmData::from_raw` classifies the
payload as `Data` (borrowed descriptor), not `Rndv` — the DATA test comes
first, so the has-descriptor flag takes precedence, contradicting the claim
that rendezvous wins when both flags are set. -/
theorem classification_both_flags_is_data :
    AmData.from_raw [1] (UCP_AM_RECV_ATTR_FLAG_DATA ||| UCP_AM_RECV_ATTR_FLAG_RNDV)
      = some (AmData.data [1]) ∧
    some (AmData.data [1]) ≠ some (AmData.rndv [1]) := by
  decide

/-- Claim C3 as amended: classification is decided purely from the attribute
flags — the has-descriptor flag selects `Data`, and it takes precedence when
both flags are set; the rendezvous flag alone selects `Rndv`; with neither
flag set and non-empty length the payload is an eager copy. -/
theorem classification_from_flags (bytes : List Nat) (attr : Nat)
    (hne : bytes.length ≠ 0) :
    (attr &&& UCP_AM_RECV_ATTR_FLAG_DATA ≠ 0 →
      AmData.from_raw bytes attr = some (AmData.data bytes)) ∧
    (attr &&& UCP_AM_RECV_ATTR_FLAG_DATA = 0 →
      attr &&& UCP_AM_RECV_ATTR_FLAG_RNDV ≠ 0 →
      AmData.from_raw bytes attr = some (AmData.rndv bytes)) ∧
    (attr &&& UCP_AM_RECV_ATTR_FLAG_DATA = 0 →
      attr &&& UCP_AM_RECV_ATTR_FLAG_RNDV = 0 →
      AmData.from_raw bytes attr = some (AmData.eager bytes)) := by
  unfold AmData.from_raw
  rw [if_neg hne]
  refine ⟨fun h1 => ?_, fun h1 h2 => ?_, fun h1 h2 => ?_⟩
  · rw [if_pos h1]
  · rw [if_neg (fun hx => hx h1), if_pos h2]
  · rw [if_neg (fun hx => hx h1), if_neg (fun hx => hx h2)]

/-- Witness for the amended C3 at concrete inputs: each of the three flag
configurations on the payload `[9]`. -/
theorem classification_from_flags_witness :
    AmData.from_raw [9] UCP_AM_RECV_ATTR_FLAG_DATA = some (AmData.data [9]) ∧
    AmData.from_raw [9] UCP_AM_RECV_ATTR_FLAG_RNDV = some (AmData.rndv [9]) ∧
    AmData.from_raw [9] 0 = some (AmData.eager [9]) :=
  ⟨(classification_from_flags [9] UCP_AM_RECV_ATTR_FLAG_DATA (by decide)).1
      (by decide),
    (classification_from_flags [9] UCP_AM_RECV_ATTR_FLAG_RNDV (by decide)).2.1
      (by decide) (by decide),
    (classification_from_flags [9] 0 (by decide)).2.2 (by decide) (by decide)⟩

/-- Claim C4, code evaluated at the failing input: an eager payload of
length 3 against caller capacity 2 makes `recv_data_vectored` fail the
`assert!(cap >= data.len())` — a panic terminating the process — instead of
returning a BufferTooSmall error value (the result type has no such error,
and no path returns `Err`). -/
theorem small_buffer_panics :
    ((AmMsg.mk ⟨1, [], some (AmData.eager [1, 2, 3]), none, 0⟩).recv_data_vectored
        [2] NativeOutcome.ok).1 = Outcome.panicked ∧
    Outcome.panicked ≠ (Outcome.err : Outcome (Nat × List Nat)) := by
  decide

/-- Claim C5, counterexample: on a message whose attributes lack the
reply-endpoint field (`need_reply()` is false), `reply()` ends in the failed
`assert_eq!(self.need_reply(), true)` — a panic terminating the process —
not a PreconditionViolated error value returned to the caller. -/
theorem reply_without_capability_panics :
    (AmMsg.mk ⟨5, [1], none, some 3, 0⟩).need_reply = false ∧
    (AmMsg.mk ⟨5, [1], none, some 3, 0⟩).reply 1 [] [] false none NativeOutcome.ok
      = Outcome.panicked ∧
    Outcome.panicked ≠ (Outcome.err : Outcome Unit) := by
  decide

/-- Claim C5 as amended: on every handle with `need_reply()` false, `reply()`
and `reply_vectorized()` are rejected — the reply is never sent and the
result is never a success or a silent no-op — but by a panic (assertion
failure), not by an error value. -/
theorem reply_gating (m : AmMsg) (id : Nat) (header data : List Nat)
    (nr : Bool) (proto : Option AmProto) (o : NativeOutcome)
    (h : m.need_reply = false) :
    m.reply id header data nr proto o = Outcome.panicked ∧
    (∀ dv, m.reply_vectorized id header dv nr proto o = Outcome.panicked) := by
  constructor
  · unfold AmMsg.reply
    rw [if_neg (by rw [h]; exact Bool.false_ne_true)]
  · intro dv
    unfold AmMsg.reply_vectorized
    rw [if_neg (by rw [h]; exact Bool.false_ne_true)]

/-- Witness for the amended C5 at a concrete message without reply
capability. -/
theorem reply_gating_witness :
    (AmMsg.mk ⟨5, [1], none, none, 2⟩).reply 1 [2] [3] false none
      NativeOutcome.ok = Outcome.panicked :=
  (reply_gating (AmMsg.mk ⟨5, [1], none, none, 2⟩) 1 [2] [3] false none
    NativeOutcome.ok (by decide)).1

/-- Helper: a handle reporting no unconsumed payload has payload field
`None`. -/
theorem data_none_of_not_contains (m : AmMsg) (h : m.contains_data = false) :
    m.msg.data = none := by
  cases hm : m.msg.data with
  | none => rfl
  | some d =>
    exfalso
    unfold AmMsg.contains_data AmMsg.data_type at h
    rw [hm] at h
    simp at h

/-- Helper: a handle whose payload field is `None` satisfies every clause of
`payloadCleared`. -/
theorem cleared_of_data_none (m : AmMsg) (h : m.msg.data = none) :
    payloadCleared m := by
  obtain ⟨⟨i, hd, d, r, a⟩⟩ := m
  simp only [AmMsg.msg] at h
  subst h
  refine ⟨rfl, rfl, rfl, ?_, ?_, ?_⟩
  · intro iov o; rfl
  · intro b o; rfl
  · intro o; rfl

/-- Helper: `recv_data_vectored` always leaves the payload field `None`,
whatever branch it takes. -/
theorem vectored_state_cleared (m : AmMsg) (iov : List Nat)
    (o : NativeOutcome) : (m.recv_data_vectored iov o).2.msg.data = none := by
  obtain ⟨⟨i, hd, d, r, a⟩⟩ := m
  cases d with
  | none => rfl
  | some ad =>
    cases ad with
    | eager bytes =>
      unfold AmMsg.recv_data_vectored
      dsimp only
      split
      · rfl
      · rfl
    | data bytes => cases o <;> rfl
    | rndv bytes => cases o <;> rfl

/-- Helper: `recv_data_single` always leaves the payload field `None`. -/
theorem single_state_cleared (m : AmMsg) (b : Nat) (o : NativeOutcome) :
    (m.recv_data_single b o).2.msg.data = none := by
  unfold AmMsg.recv_data_single
  split
  · exact data_none_of_not_contains m (by assumption)
  · exact vectored_state_cleared m [b] o

/-- Helper: `recv_data` always leaves the payload field `None`. -/
theorem recv_state_cleared (m : AmMsg) (o : NativeOutcome) :
    (m.recv_data o).2.msg.data = none := by
  obtain ⟨⟨i, hd, d, r, a⟩⟩ := m
  cases d with
  | none => rfl
  | some ad =>
    cases ad with
    | eager v => rfl
    | data bytes =>
      unfold AmMsg.recv_data
      dsimp only
      split
      · next r2 m2 heq =>
        have h := single_state_cleared
          (AmMsg.mk ⟨i, hd, some (AmData.data bytes), r, a⟩)
          (AmData.data bytes).len o
        rw [heq] at h
        exact h
      · next m2 heq =>
        have h := single_state_cleared
          (AmMsg.mk ⟨i, hd, some (AmData.data bytes), r, a⟩)
          (AmData.data bytes).len o
        rw [heq] at h
        exact h
      · next m2 heq =>
        have h := single_state_cleared
          (AmMsg.mk ⟨i, hd, some (AmData.data bytes), r, a⟩)
          (AmData.data bytes).len o
        rw [heq] at h
        exact h
    | rndv bytes =>
      unfold AmMsg.recv_data
      dsimp only
      split
      · next r2 m2 heq =>
        have h := single_state_cleared
          (AmMsg.mk ⟨i, hd, some (AmData.rndv bytes), r, a⟩)
          (AmData.rndv bytes).len o
        rw [heq] at h
        exact h
      · next m2 heq =>
        have h := single_state_cleared
          (AmMsg.mk ⟨i, hd, some (AmData.rndv bytes), r, a⟩)
          (AmData.rndv bytes).len o
        rw [heq] at h
        exact h
      · next m2 heq =>
        have h := single_state_cleared
          (AmMsg.mk ⟨i, hd, some (AmData.rndv bytes), r, a⟩)
          (AmData.rndv bytes).len o
        rw [heq] at h
        exact h

/-- Claim C6: after a successful payload retrieval through any of the three
retrieval operations, the handle reports no unconsumed payload
(`contains_data` is false, `data_len` is 0, the payload field is `None`),
and every further retrieval returns an empty success — `Ok(0)` bytes or an
empty buffer — never an error, leaving the handle unchanged. -/
theorem retrieval_at_most_once (m m2 : AmMsg) :
    (∀ iov o p, m.recv_data_vectored iov o = (Outcome.ok p, m2) →
      payloadCleared m2) ∧
    (∀ b o p, m.recv_data_single b o = (Outcome.ok p, m2) →
      payloadCleared m2) ∧
    (∀ o v, m.recv_data o = (Outcome.ok v, m2) → payloadCleared m2) := by
  refine ⟨fun iov o p h => ?_, fun b o p h => ?_, fun o v h => ?_⟩
  · have := vectored_state_cleared m iov o
    rw [h] at this
    exact cleared_of_data_none m2 this
  · have := single_state_cleared m b o
    rw [h] at this
    exact cleared_of_data_none m2 this
  · have := recv_state_cleared m o
    rw [h] at this
    exact cleared_of_data_none m2 this

/-- Witness for C6: an eager payload `[1, 2]` retrieved successfully through
`recv_data` leaves a handle with no payload, and a second `recv_data` on it
returns an empty success. -/
theorem retrieval_at_most_once_witness :
    (AmMsg.mk ⟨7, [9], none, none, 0⟩).msg.data = none ∧
    (AmMsg.mk ⟨7, [9], none, none, 0⟩).contains_data = false ∧
    (AmMsg.mk ⟨7, [9], none, none, 0⟩).data_len = 0 ∧
    (AmMsg.mk ⟨7, [9], none, none, 0⟩).recv_data NativeOutcome.ok
      = (Outcome.ok [], AmMsg.mk ⟨7, [9], none, none, 0⟩) :=
  let h := (retrieval_at_most_once
      (AmMsg.mk ⟨7, [9], some (AmData.eager [1, 2]), none, 0⟩)
      (AmMsg.mk ⟨7, [9], none, none, 0⟩)).2.2 NativeOutcome.ok [1, 2] rfl
  ⟨h.1, h.2.1, h.2.2.1, h.2.2.2.2.2 NativeOutcome.ok⟩

/-- Helper: on an unregistered handler with an empty queue, every `wait_msg`
step yields `None`. -/
theorem waitSeq_unregistered_empty (i k : Nat) :
    (waitSeq ⟨i, [], true⟩ k).1 = List.replicate k WaitResult.no_msg := by
  induction k with
  | zero => rfl
  | succ n ih =>
    have hw : AmHandler.wait_msg ⟨i, [], true⟩
        = (WaitResult.no_msg, (⟨i, [], true⟩ : AmHandler)) := rfl
    unfold waitSeq
    rw [hw]
    simp [ih, List.replicate]

/-- Helper: on an unregistered handler holding queue `l`, the first
`l.length` calls to `wait_msg` yield the queued envelopes in order and every
further call yields `None`. -/
theorem waitSeq_drain (i : Nat) (l : List RawMsg) (k : Nat) :
    (waitSeq ⟨i, l, true⟩ (l.length + k)).1
      = l.map WaitResult.got ++ List.replicate k WaitResult.no_msg := by
  induction l with
  | nil => simpa using waitSeq_unregistered_empty i k
  | cons m rest ih =>
    have hw : AmHandler.wait_msg ⟨i, m :: rest, true⟩
        = (WaitResult.got m, (⟨i, rest, true⟩ : AmHandler)) := rfl
    have hlen : (m :: rest).length + k = (rest.length + k) + 1 := by
      simp [List.length_cons]
      omega
    rw [hlen]
    unfold waitSeq
    rw [hw]
    simp [ih]

/-- Claim C7: unregistering an id whose handler holds N enqueued envelopes
hands back the shared handler with its queue intact and only the flag set;
the next N `wait_msg` calls on it yield exactly those N envelopes as `Some`
results in arrival order, and every call after those N yields `None`,
forever — no already-enqueued envelope is discarded. -/
theorem unregister_preserves_and_drains (w : WorkerAm) (id : Nat)
    (h : AmHandler) (k : Nat)
    (hw : (removeKey id w.am_handlers).2 = some h) :
    (w.am_unregister id).2 = some h.unregister ∧
    h.unregister.msgs = h.msgs ∧
    h.unregister.unregistered = true ∧
    (waitSeq h.unregister (h.msgs.length + k)).1
      = h.msgs.map WaitResult.got ++ List.replicate k WaitResult.no_msg := by
  obtain ⟨i, msgs, u⟩ := h
  refine ⟨?_, rfl, rfl, waitSeq_drain i msgs k⟩
  unfold WorkerAm.am_unregister
  dsimp only
  rw [hw]
  rfl

/-- Witness for C7 on a registry holding one handler with one queued
envelope at id 3. -/
theorem unregister_preserves_and_drains_witness :
    (WorkerAm.am_unregister ⟨[(3, ⟨3, [⟨3, [], none, none, 0⟩], false⟩)], [3]⟩
        3).2
      = some (AmHandler.unregister ⟨3, [⟨3, [], none, none, 0⟩], false⟩) :=
  (unregister_preserves_and_drains
    ⟨[(3, ⟨3, [⟨3, [], none, none, 0⟩], false⟩)], [3]⟩ 3
    ⟨3, [⟨3, [], none, none, 0⟩], false⟩ 1 (by decide)).1

/-- Claim C8: for a fixed handler (one message id), the envelopes dequeued
by consumers, in dequeue order, followed by what remains queued, equal the
initial queue followed by the arrivals in arrival order — so consumption is
strict FIFO: dequeues never reorder, skip, or duplicate an enqueued
envelope, and from an empty initial queue the dequeue sequence is a prefix
of the arrival sequence. -/
theorem handler_fifo (h : AmHandler) (ops : List HOp) :
    (runHandler h ops).2 ++ (runHandler h ops).1.msgs
      = h.msgs ++ arrivals h.id ops := by
  induction ops generalizing h with
  | nil => simp [runHandler, arrivals]
  | cons op ops ih =>
    cases op with
    | arrive hd d r a =>
      show (runHandler (h.callback hd d r a) ops).2
          ++ (runHandler (h.callback hd d r a) ops).1.msgs
        = h.msgs ++ arrivals h.id (HOp.arrive hd d r a :: ops)
      rw [ih (h.callback hd d r a)]
      simp [AmHandler.callback, arrivals]
    | consume =>
      obtain ⟨i, msgs, u⟩ := h
      cases msgs with
      | nil =>
        have hred : runHandler ⟨i, [], u⟩ (HOp.consume :: ops)
            = runHandler ⟨i, [], u⟩ ops := by
          cases u <;> rfl
        rw [hred]
        simpa [arrivals] using ih ⟨i, [], u⟩
      | cons m rest =>
        have hred : runHandler ⟨i, m :: rest, u⟩ (HOp.consume :: ops)
            = ((runHandler ⟨i, rest, u⟩ ops).1,
                m :: (runHandler ⟨i, rest, u⟩ ops).2) := by
          cases u <;> rfl
        rw [hred]
        have hi := ih ⟨i, rest, u⟩
        simp only [arrivals] at hi ⊢
        simp only [List.cons_append]
        rw [hi]

/-- Helper: appending an entry keyed `id` makes `containsKey id` true. -/
theorem containsKey_append_self (id : Nat) (l : List (Nat × AmHandler))
    (h : AmHandler) : containsKey id (l ++ [(id, h)]) = true := by
  induction l with
  | nil => simp [containsKey]
  | cons p rest ih =>
    obtain ⟨k, hh⟩ := p
    simp [containsKey, ih]

/-- Claim C9: registration is idempotent — registering an id twice leaves
the same worker state as registering it once, and registering an id that is
already present changes nothing: the mapping is untouched and no native
callback installation is recorded. -/
theorem register_idempotent (w : WorkerAm) (id : Nat) :
    (w.am_register id).am_register id = w.am_register id ∧
    (containsKey id w.am_handlers = true → w.am_register id = w) := by
  have hsec : ∀ v : WorkerAm, containsKey id v.am_handlers = true →
      v.am_register id = v := by
    intro v hv
    unfold WorkerAm.am_register
    rw [if_pos hv]
  refine ⟨?_, hsec w⟩
  by_cases hc : containsKey id w.am_handlers = true
  · rw [hsec w hc, hsec w hc]
  · have h1 : w.am_register id =
        ⟨w.am_handlers ++ [(id, AmHandler.new id)], w.installed ++ [id]⟩ := by
      unfold WorkerAm.am_register
      rw [if_neg hc, if_neg hc]
    rw [h1]
    exact hsec _ (containsKey_append_self id w.am_handlers (AmHandler.new id))

/-- Witness for C9: registering id 4 on a worker that already holds a
handler for id 4 changes nothing. -/
theorem register_idempotent_witness :
    WorkerAm.am_register ⟨[(4, AmHandler.new 4)], [4]⟩ 4
      = ⟨[(4, AmHandler.new 4)], [4]⟩ :=
  (register_idempotent ⟨[(4, AmHandler.new 4)], [4]⟩ 4).2 (by decide)

/-- Claim C10: an arrival with payload length zero yields no payload,
whatever the attribute flags: classification gives `None`, the constructed
message reports `contains_data` false, `data_type` `None`, `data_len` 0,
`recv_data` returns an empty success, and drop releases no descriptor. -/
theorem zero_length_no_payload (d : List Nat) (attr id : Nat)
    (header : List Nat) (reply : Option Nat) (h : d.length = 0) :
    AmData.from_raw d attr = none ∧
    (AmMsg.mk (RawMsg.from_raw id header d reply attr)).contains_data
      = false ∧
    (AmMsg.mk (RawMsg.from_raw id header d reply attr)).data_type = none ∧
    (AmMsg.mk (RawMsg.from_raw id header d reply attr)).data_len = 0 ∧
    (∀ o, (AmMsg.mk (RawMsg.from_raw id header d reply attr)).recv_data o
      = (Outcome.ok [], AmMsg.mk (RawMsg.from_raw id header d reply attr))) ∧
    (AmMsg.mk (RawMsg.from_raw id header d reply attr)).dropReleases
      = none := by
  have hfr : AmData.from_raw d attr = none := by
    unfold AmData.from_raw
    rw [if_pos h]
  have hmsg : RawMsg.from_raw id header d reply attr
      = ⟨id, header, none, reply, attr⟩ := by
    unfold RawMsg.from_raw
    rw [hfr]
  rw [hmsg]
  exact ⟨hfr, rfl, rfl, rfl, fun o => rfl, rfl⟩

/-- Witness for C10 at a zero-length arrival carrying both descriptor flags
and the reply field. -/
theorem zero_length_no_payload_witness :
    AmData.from_raw []
        (UCP_AM_RECV_ATTR_FLAG_DATA ||| UCP_AM_RECV_ATTR_FLAG_RNDV |||
          UCP_AM_RECV_ATTR_FIELD_REPLY_EP) = none ∧
    (AmMsg.mk (RawMsg.from_raw 3 [7] [] (some 2)
        (UCP_AM_RECV_ATTR_FLAG_DATA ||| UCP_AM_RECV_ATTR_FLAG_RNDV |||
          UCP_AM_RECV_ATTR_FIELD_REPLY_EP))).contains_data = false :=
  let h := zero_length_no_payload [] (UCP_AM_RECV_ATTR_FLAG_DATA |||
      UCP_AM_RECV_ATTR_FLAG_RNDV ||| UCP_AM_RECV_ATTR_FIELD_REPLY_EP)
      3 [7] (some 2) rfl
  ⟨h.1, h.2.1⟩

end AsyncUcx
